import Mathlib

/-!
Verification development for synfig-studio's synfigapp mutation core
(src/synfig-studio/src/synfigapp/canvasinterface.cpp).

Each section shallowly embeds one operation of CanvasInterface as an
executable Lean function over an explicit state, translated from the C++
source.  Times are idealised as rationals, action application is recorded
as labelled entries in an explicit log, and external collaborators
(Instance, UIInterface, ValueNodeRegistry, Importer book, ...) are
represented by oracle fields of an environment record, as the source only
consumes them through narrow boolean-result contracts.
-/

set_option maxHeartbeats 1000000

namespace CanvasModel

/-- Pointwise update of a function on natural-number keys. -/
def fupd {α : Type} (f : ℕ → α) (k : ℕ) (v : α) : ℕ → α :=
  fun n => if n = k then v else f n

@[simp] theorem fupd_same {α : Type} (f : ℕ → α) (k : ℕ) (v : α) : fupd f k v k = v := by
  simp [fupd]

@[simp] theorem fupd_other {α : Type} (f : ℕ → α) (k n : ℕ) (v : α) (h : n ≠ k) :
    fupd f k v n = f n := by
  simp [fupd, h]

/-! ### Time model (CanvasInterface::set_time, lines 115-137)

Canvases are identified by natural numbers.  `TimeTree` holds the static
structure of the canvas forest: the root of each canvas (reachable by
parent links), the children list of each canvas (Canvas::children), and
each canvas's rend-desc frame rate.  `TimeState` holds the mutable data:
the time stored in each canvas (the target of Canvas::set_time, modelled
from the spec as the document's stored time field), the per-interface time
cursor cur_time_, the per-interface count of emitted time-changed signals,
plus two instrumentation fields: a log of the interfaces on which set_time
was invoked, in invocation order, and a flag recording that evaluation
never ran out of fuel. -/

structure TimeTree where
  rootOf : ℕ → ℕ
  children : ℕ → List ℕ
  frameRate : ℕ → ℚ

structure TimeState where
  canvasTime : ℕ → ℚ
  curTime : ℕ → ℚ
  signals : ℕ → ℕ
  log : List ℕ
  ok : Bool

/-- Time::round(fps): round to the nearest frame boundary, half-frames
rounding up (floor when the fractional part is below one half, ceiling
otherwise), translated from synfig::Time::round. -/
def timeRound (fps t : ℚ) : ℚ := ((⌊t * fps + 1/2⌋ : ℤ) : ℚ) / fps

/-- Quantization step at the head of set_time (lines 118-124): round to the
frame rate when the frame rate is non-zero, otherwise keep the raw value. -/
def quantized (T : TimeTree) (c : ℕ) (t : ℚ) : ℚ :=
  if T.frameRate c ≠ 0 then timeRound (T.frameRate c) t else t

/-- CanvasInterface::set_time translated from lines 115-137.  The argument
is first quantized; an equality with the current cursor short-circuits;
otherwise the cursor and the canvas's stored time are updated, the
interface of every direct child of the root other than this one is asked to
adopt its own canvas's stored time, and the time-changed signal is emitted
once.  Instance::find_canvas_interface is modelled as total (one interface
per canvas).  The fuel argument bounds the re-entrant fan-out depth;
exhausting it clears the ok flag. -/
def set_time (T : TimeTree) : ℕ → TimeState → ℕ → ℚ → TimeState
  | 0, st, _, _ => { st with ok := false }
  | fuel + 1, st, c, t =>
    let x : ℚ := quantized T c t
    if st.curTime c = x then { st with log := st.log ++ [c] }
    else
      let st1 : TimeState :=
        { st with log := st.log ++ [c],
                  curTime := fupd st.curTime c x,
                  canvasTime := fupd st.canvasTime c x }
      let st2 := (T.children (T.rootOf c)).foldl
        (fun s child =>
          if child ≠ c then set_time T fuel s child (s.canvasTime child) else s) st1
      { st2 with signals := fupd st2.signals c (st2.signals c + 1) }

/-- Steady-state invariant for an interface: its cursor agrees with its
canvas's stored time, and that value is already frame-aligned whenever the
frame rate is non-zero (both hold after any completed set_time on it). -/
def aligned (T : TimeTree) (st : TimeState) (d : ℕ) : Prop :=
  st.curTime d = st.canvasTime d ∧
    (T.frameRate d ≠ 0 → timeRound (T.frameRate d) (st.curTime d) = st.curTime d)

/-- Invoking set_time on an aligned interface with its own canvas's stored
time is a no-op apart from the invocation log. -/
theorem set_time_noop (T : TimeTree) (fuel : ℕ) (st : TimeState) (d : ℕ)
    (h : aligned T st d) :
    set_time T (fuel + 1) st d (st.canvasTime d) = { st with log := st.log ++ [d] } := by
  obtain ⟨h1, h2⟩ := h
  have hx : st.curTime d = quantized T d (st.canvasTime d) := by
    unfold quantized
    by_cases hf : T.frameRate d ≠ 0
    · rw [if_pos hf, ← h1, h2 hf]
    · rw [if_neg hf, h1]
  unfold set_time
  rw [if_pos hx]

/-- Folding the fan-out loop over a list of aligned interfaces only extends
the invocation log with the non-self entries of the list. -/
theorem set_time_fold_noop (T : TimeTree) (fuel : ℕ) (c : ℕ) (l : List ℕ) :
    ∀ st : TimeState, (∀ d ∈ l, d ≠ c → aligned T st d) →
      l.foldl
        (fun s child =>
          if child ≠ c then set_time T (fuel + 1) s child (s.canvasTime child) else s) st =
        { st with log := st.log ++ l.filter (fun d => d ≠ c) } := by
  induction l with
  | nil => intro st _; simp
  | cons child rest ih =>
    intro st hal
    rw [List.foldl_cons]
    by_cases hc : child ≠ c
    · rw [if_pos hc, set_time_noop T fuel st child (hal child (by simp) hc),
        ih { st with log := st.log ++ [child] } (fun d hd hdc => hal d (by simp [hd]) hdc)]
      simp [List.filter_cons, hc]
    · rw [if_neg hc, ih st (fun d hd hdc => hal d (by simp [hd]) hdc)]
      push_neg at hc
      simp [List.filter_cons, hc]

/-- Characterization of set_time from a state where every other interface
is in its steady state: when the quantized argument equals the cursor
nothing but the log changes, and otherwise exactly the target's cursor and
canvas time are updated, its signal fires once, and the interfaces asked
are exactly the direct children of the root other than the target. -/
theorem set_time_spec (T : TimeTree) (fuel : ℕ) (st : TimeState) (c : ℕ) (t : ℚ)
    (hal : ∀ d, d ≠ c → aligned T st d) :
    set_time T (fuel + 2) st c t =
      (if st.curTime c = quantized T c t then { st with log := st.log ++ [c] }
       else
        { canvasTime := fupd st.canvasTime c (quantized T c t),
          curTime := fupd st.curTime c (quantized T c t),
          signals := fupd st.signals c (st.signals c + 1),
          log := st.log ++ [c] ++ (T.children (T.rootOf c)).filter (fun d => d ≠ c),
          ok := st.ok }) := by
  rw [show fuel + 2 = (fuel + 1) + 1 from rfl]
  unfold set_time
  by_cases he : st.curTime c = quantized T c t
  · rw [if_pos he, if_pos he]
  · rw [if_neg he, if_neg he]
    dsimp only
    have hchild : ∀ d ∈ T.children (T.rootOf c), d ≠ c →
        aligned T { st with
          log := st.log ++ [c],
          curTime := fupd st.curTime c (quantized T c t),
          canvasTime := fupd st.canvasTime c (quantized T c t) } d := by
      intro d _ hdc
      obtain ⟨h1, h2⟩ := hal d hdc
      constructor
      · simp [fupd, hdc, h1]
      · intro hf
        simp only [fupd, if_neg hdc]
        exact h2 hf
    rw [set_time_fold_noop T fuel c _ _ hchild]

/-- C2: for every time t, set_time(t) first quantizes t to the document's
frame rate (round-to-nearest-frame when the frame rate is non-zero); if the
quantized value equals the current time cursor it performs no mutation and
emits zero time-changed notifications, and otherwise it updates the stored
cursor and emits the time-changed notification exactly once for that call,
from any state whose other interfaces are in their steady state. -/
theorem set_time_quantize_once (T : TimeTree) (fuel : ℕ) (st : TimeState) (c : ℕ) (t : ℚ)
    (hal : ∀ d, d ≠ c → aligned T st d) :
    (st.curTime c = quantized T c t →
      ∀ d, (set_time T (fuel + 2) st c t).curTime d = st.curTime d ∧
           (set_time T (fuel + 2) st c t).canvasTime d = st.canvasTime d ∧
           (set_time T (fuel + 2) st c t).signals d = st.signals d) ∧
    (st.curTime c ≠ quantized T c t →
      (set_time T (fuel + 2) st c t).curTime c = quantized T c t ∧
      (set_time T (fuel + 2) st c t).canvasTime c = quantized T c t ∧
      (set_time T (fuel + 2) st c t).signals c = st.signals c + 1 ∧
      ∀ d, d ≠ c → (set_time T (fuel + 2) st c t).signals d = st.signals d) := by
  rw [set_time_spec T fuel st c t hal]
  constructor
  · intro he d
    rw [if_pos he]
    exact ⟨rfl, rfl, rfl⟩
  · intro he
    rw [if_neg he]
    refine ⟨by simp, by simp, by simp, ?_⟩
    intro d hd
    simp [fupd, hd]

/-- Degenerate one-canvas forest used to instantiate the set_time theorems. -/
def wT : TimeTree :=
  { rootOf := fun _ => 0, children := fun _ => [], frameRate := fun _ => 0 }

/-- All-zero initial time state. -/
def wSt : TimeState :=
  { canvasTime := fun _ => 0, curTime := fun _ => 0, signals := fun _ => 0,
    log := [], ok := true }

theorem set_time_quantize_once_witness :
    (set_time wT 2 wSt 1 0).signals 1 = 0 ∧ (set_time wT 2 wSt 1 1).signals 1 = 1 := by
  have hal : ∀ d, d ≠ 1 → aligned wT wSt d := fun d _ => ⟨rfl, fun h => absurd rfl h⟩
  have hq0 : wSt.curTime 1 = quantized wT 1 0 := by simp [wSt, wT, quantized]
  have hq1 : wSt.curTime 1 ≠ quantized wT 1 1 := by simp [wSt, wT, quantized]
  exact ⟨((set_time_quantize_once wT 0 wSt 1 0 hal).1 hq0 1).2.2,
         ((set_time_quantize_once wT 0 wSt 1 1 hal).2 hq1).2.2.1⟩

/-- Canvas forest refuting the reach-every-document reading of the fan-out:
canvas 0 is the root, canvases 1 and 2 are its direct children, canvas 3 is
a child of canvas 1 (a grandchild of the root), and all four share root 0. -/
def cexT : TimeTree :=
  { rootOf := fun n => if n ≤ 3 then 0 else n,
    children := fun n => if n = 0 then [1, 2] else if n = 1 then [3] else [],
    frameRate := fun _ => 0 }

/-- All-zero initial time state for the fan-out counterexample. -/
def cexSt : TimeState :=
  { canvasTime := fun _ => 0, curTime := fun _ => 0, signals := fun _ => 0,
    log := [], ok := true }

/-- C3 counterexample: canvases 1 and 3 live in the same root tree (root 0)
and differ, set_time on canvas 1 with a fresh value does change canvas 1's
time, yet the propagation invokes only the interfaces of canvases 1 and 2:
the mediator of document 3 of the same tree is never asked, and neither is
the root's own mediator. -/
theorem set_time_reach_counterexample :
    cexT.rootOf 3 = cexT.rootOf 1 ∧ (3 : ℕ) ≠ 1 ∧
    (set_time cexT 5 cexSt 1 1).curTime 1 ≠ cexSt.curTime 1 ∧
    (set_time cexT 5 cexSt 1 1).log = [1, 2] ∧
    3 ∉ (set_time cexT 5 cexSt 1 1).log ∧
    0 ∉ (set_time cexT 5 cexSt 1 1).log := by
  have hal : ∀ d, d ≠ 1 → aligned cexT cexSt d := fun d _ => ⟨rfl, fun h => absurd rfl h⟩
  have hs := set_time_spec cexT 3 cexSt 1 1 hal
  have hq : quantized cexT 1 1 = 1 := by simp [cexT, quantized]
  have hne : cexSt.curTime 1 ≠ quantized cexT 1 1 := by
    rw [hq]; simp [cexSt]
  rw [if_neg hne] at hs
  have h5 : (5 : ℕ) = 3 + 2 := rfl
  rw [h5, hs]
  refine ⟨by simp [cexT], by simp, ?_, ?_, ?_, ?_⟩
  · rw [hq]; simp [fupd, cexSt]
  · simp [cexT, cexSt, List.filter]
  · simp [cexT, cexSt, List.filter]
  · simp [cexT, cexSt, List.filter]

/-- C3 amended: a set_time call on D1's mediator that changes D1's time
invokes set_time on D1 exactly once (it is never re-invoked), additionally
invokes exactly the mediators of the root's direct children other than D1 —
not every document of the tree — never invokes a mediator whose document
belongs to another root tree, and the fan-out terminates (the result is
fuel-independent with the ok flag preserved). -/
theorem set_time_fanout_amended (T : TimeTree) (fuel : ℕ) (st : TimeState) (c : ℕ) (t : ℚ)
    (hal : ∀ d, d ≠ c → aligned T st d)
    (hroot : ∀ d ∈ T.children (T.rootOf c), T.rootOf d = T.rootOf c)
    (hch : st.curTime c ≠ quantized T c t) :
    (set_time T (fuel + 2) st c t).log =
      st.log ++ c :: (T.children (T.rootOf c)).filter (fun d => d ≠ c) ∧
    (set_time T (fuel + 2) st c t).log.count c = st.log.count c + 1 ∧
    (∀ d, d ∈ (set_time T (fuel + 2) st c t).log → d ∉ st.log →
      T.rootOf d = T.rootOf c) ∧
    (set_time T (fuel + 2) st c t).ok = st.ok := by
  rw [set_time_spec T fuel st c t hal, if_neg hch]
  refine ⟨by simp, ?_, ?_, rfl⟩
  · rw [List.append_assoc, List.singleton_append, List.count_append, List.count_cons_self]
    have hc0 : List.count c ((T.children (T.rootOf c)).filter (fun d => d ≠ c)) = 0 := by
      apply List.count_eq_zero.mpr
      intro hmem
      have := (List.mem_filter.mp hmem).2
      simp at this
    rw [hc0]
  · intro d hd hnd
    rw [List.append_assoc, List.singleton_append, List.mem_append] at hd
    rcases hd with h | h
    · exact absurd h hnd
    · rw [List.mem_cons] at h
      rcases h with h | h
      · rw [h]
      · exact hroot d (List.mem_of_mem_filter h)

theorem set_time_fanout_amended_witness :
    (set_time cexT 2 cexSt 1 1).log = [1, 2] ∧ (set_time cexT 2 cexSt 1 1).ok = true := by
  have hal : ∀ d, d ≠ 1 → aligned cexT cexSt d := fun d _ => ⟨rfl, fun h => absurd rfl h⟩
  have hroot : ∀ d ∈ cexT.children (cexT.rootOf 1), cexT.rootOf d = cexT.rootOf 1 := by
    intro d hd
    simp [cexT] at hd ⊢
    rcases hd with rfl | rfl <;> norm_num
  have hch : cexSt.curTime 1 ≠ quantized cexT 1 1 := by
    simp [cexSt, cexT, quantized]
  have h := set_time_fanout_amended cexT 0 cexSt 1 1 hal hroot hch
  refine ⟨?_, ?_⟩
  · rw [h.1]; simp [cexT, cexSt, List.filter]
  · rw [h.2.2.2]; rfl

/-! ### Default-parameter classification (CanvasInterface::layer_set_defaults, lines 296-403)

The loop over a new layer's parameters only inspects each parameter's type
and, for list parameters, the types of the list's elements, so a parameter
is embedded as a `ParamType` together with the element-type list when it is
a list.  The two getenv switches and ValueNodeRegistry::check_type are
environment oracles. -/

inductive ParamType where
  | tList
  | tBlinePoint
  | tBoneObject
  | tBonePair
  | tVector
  | tWidthPoint
  | tDashItem
  | tColor
  | tCanvasT
  | tOther : ℕ → ParamType
deriving DecidableEq

inductive NodeKind where
  | bline
  | staticList
  | dynamicList
  | wplist
  | dilist
  | composite
deriving DecidableEq

structure DefaultsEnv where
  useDynamicListForBones : Bool
  useStaticListForVectors : Bool
  compositeOk : ParamType → Bool

/-- Classification of a list parameter's value node, translated from lines
313-390: a first pass applies only when every element has the first
element's type (bline points become a bline node, bone objects and bone
pairs a static list unless the bones getenv switch is set, vectors a
dynamic list unless the vectors getenv switch is set); a second pass
overwrites the choice with a wplist node when every element is a width
point, and a third with a dilist node when every element is a dash item;
none yields no node (the caller then falls back to a dynamic list). -/
def listValueNode (env : DefaultsEnv) (list : List ParamType) : Option NodeKind :=
  match list with
  | [] => none
  | t :: rest =>
    let vn0 : Option NodeKind :=
      if rest.all (fun u => u = t) then
        if t = .tBlinePoint then some .bline
        else if t = .tBoneObject then
          some (if env.useDynamicListForBones then .dynamicList else .staticList)
        else if t = .tBonePair then
          some (if env.useDynamicListForBones then .dynamicList else .staticList)
        else if t = .tVector then
          some (if env.useStaticListForVectors then .staticList else .dynamicList)
        else none
      else none
    let vn1 : Option NodeKind :=
      if (t :: rest).all (fun u => u = .tWidthPoint) then some .wplist else vn0
    if (t :: rest).all (fun u => u = .tDashItem) then some .dilist else vn1

/-- Value node chosen for one parameter by layer_set_defaults, translated
from lines 310-398: a list parameter gets its list classification with a
dynamic list as fallback; a non-list parameter whose type has a composite
decomposition registered gets a composite node unless its type is color or
vector; anything else gets no dynamic-param node. -/
def paramDefaultNode (env : DefaultsEnv) (t : ParamType) (elems : List ParamType) :
    Option NodeKind :=
  if t = .tList then
    some ((listValueNode env elems).getD .dynamicList)
  else if env.compositeOk t = true ∧ t ≠ .tColor ∧ t ≠ .tVector then
    some .composite
  else none

/-- Environment with both getenv switches unset (the default). -/
def defaultsEnv0 : DefaultsEnv :=
  { useDynamicListForBones := false,
    useStaticListForVectors := false,
    compositeOk := fun _ => false }

/-- C5 counterexample: under the default environment, a homogeneous list of
bone objects — which the claim's classification would send to the generic
dynamic-list node — is wrapped in a static-list node instead. -/
theorem layer_set_defaults_counterexample :
    paramDefaultNode defaultsEnv0 .tList [.tBoneObject] = some .staticList ∧
    some NodeKind.staticList ≠ some NodeKind.dynamicList := by
  exact ⟨rfl, by decide⟩

/-- Reference classification by homogeneous element type: the first
unambiguous match in priority order, with bone-object and bone-pair lists
going to a static list (dynamic under the bones switch), vector lists to a
dynamic list (static under the vectors switch), and everything else —
heterogeneous, empty, or otherwise-typed lists — to the generic dynamic
list. -/
def listClassSpec (env : DefaultsEnv) (list : List ParamType) : NodeKind :=
  match list with
  | [] => .dynamicList
  | u :: rest =>
    if rest.all (fun v => v = u) then
      match u with
      | .tBlinePoint => .bline
      | .tWidthPoint => .wplist
      | .tDashItem => .dilist
      | .tBoneObject => if env.useDynamicListForBones then .dynamicList else .staticList
      | .tBonePair => if env.useDynamicListForBones then .dynamicList else .staticList
      | .tVector => if env.useStaticListForVectors then .staticList else .dynamicList
      | _ => .dynamicList
    else .dynamicList

/-- C5 amended: every list-typed parameter is classified by its homogeneous
element type, evaluated in a fixed priority order with only the first
unambiguous match applied: homogeneous bline-point lists become a curve
node, width-point lists a width-list node, dash-item lists a dash-list
node, bone-object and bone-pair lists a static-list node (dynamic-list
under the bones environment switch), vector lists a dynamic-list node
(static-list under the vectors switch), and any other list the generic
dynamic-list node; a non-list parameter whose type has a registered
composite decomposition becomes a composite node unless its type is color
or vector, and other non-list parameters get no node. -/
theorem layer_set_defaults_amended (env : DefaultsEnv) (t : ParamType)
    (elems : List ParamType) :
    paramDefaultNode env t elems =
      (if t = .tList then some (listClassSpec env elems)
       else if env.compositeOk t = true ∧ t ≠ .tColor ∧ t ≠ .tVector then some .composite
       else none) := by
  unfold paramDefaultNode
  by_cases ht : t = .tList
  · rw [if_pos ht, if_pos ht]
    congr 1
    unfold listValueNode listClassSpec
    cases elems with
    | nil => rfl
    | cons u rest =>
      dsimp only
      by_cases hh : rest.all (fun v => v = u)
      · rw [if_pos hh, if_pos hh]
        have hall : ∀ w : ParamType, (u :: rest).all (fun v => v = w) = (u = w ∧ rest.all (fun v => v = u)) := by
          intro w
          simp only [List.all_cons, Bool.and_eq_true, decide_eq_true_eq, eq_iff_iff]
          constructor
          · rintro ⟨rfl, _⟩
            exact ⟨rfl, hh⟩
          · rintro ⟨rfl, _⟩
            refine ⟨rfl, ?_⟩
            simp only [List.all_eq_true, decide_eq_true_eq] at hh ⊢
            exact hh
        cases u <;> simp [hall, hh]
      · rw [if_neg hh]
        have hnw : ¬ (u :: rest).all (fun v => v = .tWidthPoint) = true := by
          intro hc
          simp only [List.all_cons, Bool.and_eq_true, decide_eq_true_eq] at hc
          obtain ⟨rfl, hr⟩ := hc
          apply hh
          simp only [List.all_eq_true, decide_eq_true_eq] at hr ⊢
          exact hr
        have hnd : ¬ (u :: rest).all (fun v => v = .tDashItem) = true := by
          intro hc
          simp only [List.all_cons, Bool.and_eq_true, decide_eq_true_eq] at hc
          obtain ⟨rfl, hr⟩ := hc
          apply hh
          simp only [List.all_eq_true, decide_eq_true_eq] at hr ⊢
          exact hr
        simp only [hnw, hnd, if_false, if_neg hh]
        rfl
  · rw [if_neg ht, if_neg ht]

/-! ### Readiness-gated layer actions (layer_add_action lines 406-426, layer_move_action lines 428-449)

An Action is abstracted by three booleans: whether Action creation
succeeded, what is_ready reports, and whether performing it succeeds.  The
observable state is the notification-sink error count and the list of
entries the enclosing transaction group has accumulated. -/

structure ActionSpec where
  createOk : Bool
  ready : Bool
  performOk : Bool

structure EditState where
  errors : ℕ
  groupEntries : List String
deriving DecidableEq

/-- Modelled from the spec: Instance::perform_action applies a ready action
and, while a group is open, appends it to the group; a failing perform
leaves the group without a new entry and reports failure to the caller. -/
def perform_action (name : String) (a : ActionSpec) (st : EditState) : Bool × EditState :=
  if a.performOk = true then (true, { st with groupEntries := st.groupEntries ++ [name] })
  else (false, st)

/-- CanvasInterface::layer_add_action translated from lines 406-426: invalid
layer and failed Action creation return false silently; a not-ready action
reports one error and returns false before any perform; a failed perform
reports one error and returns false. -/
def layer_add_action (layerValid : Bool) (a : ActionSpec) (st : EditState) : Bool × EditState :=
  if layerValid = false then (false, st)
  else if a.createOk = false then (false, st)
  else if a.ready = false then (false, { st with errors := st.errors + 1 })
  else
    match perform_action "LayerAdd" a st with
    | (true, st1) => (true, st1)
    | (false, st1) => (false, { st1 with errors := st1.errors + 1 })

/-- CanvasInterface::layer_move_action translated from lines 428-449, with
the same shape as layer_add_action plus the new depth parameter. -/
def layer_move_action (layerValid : Bool) (a : ActionSpec) (depth : ℤ) (st : EditState) :
    Bool × EditState :=
  if layerValid = false then (false, st)
  else if a.createOk = false then (false, st)
  else if a.ready = false then (false, { st with errors := st.errors + 1 })
  else
    match perform_action "LayerMove" a st with
    | (true, st1) => (true, st1)
    | (false, st1) => (false, { st1 with errors := st1.errors + 1 })

/-- C8: for every layer passed to layer_add_action (and layer_move_action)
whose constructed Action reports is_ready false, the operation invokes the
notification sink's error report exactly once, returns false, and never
performs the action, so the enclosing transaction group gains zero
additional entries from the call. -/
theorem layer_action_not_ready (layerValid : Bool) (a : ActionSpec) (depth : ℤ)
    (st : EditState) (hl : layerValid = true) (hc : a.createOk = true)
    (hr : a.ready = false) :
    layer_add_action layerValid a st = (false, { st with errors := st.errors + 1 }) ∧
    layer_move_action layerValid a depth st = (false, { st with errors := st.errors + 1 }) := by
  subst hl
  unfold layer_add_action layer_move_action
  simp [hc, hr]

theorem layer_action_not_ready_witness :
    layer_add_action true { createOk := true, ready := false, performOk := true }
        { errors := 0, groupEntries := [] } =
      (false, { errors := 1, groupEntries := [] }) ∧
    layer_move_action true { createOk := true, ready := false, performOk := true } 3
        { errors := 0, groupEntries := [] } =
      (false, { errors := 1, groupEntries := [] }) := by
  have h := layer_action_not_ready true
    { createOk := true, ready := false, performOk := true } 3
    { errors := 0, groupEntries := [] } rfl rfl rfl
  exact h

/-! ### Metadata (CanvasInterface::set_meta_data, lines 1246-1273) -/

structure MetaState where
  meta : List (String × String)
  constructed : ℕ
  performed : List (String × String × String)
deriving DecidableEq

/-- Modelled from the spec: Canvas::get_meta_data returns the stored value
for a key, the empty string when the key is absent. -/
def canvas_get_meta_data (meta : List (String × String)) (key : String) : String :=
  match meta.find? (fun kv => kv.1 = key) with
  | some kv => kv.2
  | none => ""

/-- Modelled from the spec: Canvas::set_meta_data stores the value under the
key, replacing an existing binding. -/
def canvas_set_meta_data (meta : List (String × String)) (key v : String) :
    List (String × String) :=
  if meta.any (fun kv => kv.1 = key) then
    meta.map (fun kv => if kv.1 = key then (key, v) else kv)
  else meta ++ [(key, v)]

/-- CanvasInterface::set_meta_data translated from lines 1246-1273: an
early return when the stored value already equals the data; the guide key
routes through a CanvasMetadataSet action (whose apply stores the value);
every other key mutates the canvas's metadata store directly. -/
def set_meta_data (createOk performOk : Bool) (st : MetaState) (key data : String) :
    MetaState :=
  if canvas_get_meta_data st.meta key = data then st
  else if key = "guide" then
    if createOk = false then st
    else
      let st1 := { st with constructed := st.constructed + 1 }
      if performOk = true then
        { st1 with performed := st1.performed ++ [("CanvasMetadataSet", key, data)],
                   meta := canvas_set_meta_data st1.meta key data }
      else st1
  else { st with meta := canvas_set_meta_data st.meta key data }

/-- C9: for every key and value, set_meta_data is a complete no-op — no
Action is constructed (even for the guide key) and the document's metadata
store is untouched — whenever the stored metadata for that key already
equals the given value. -/
theorem set_meta_data_noop (createOk performOk : Bool) (st : MetaState) (key data : String)
    (h : canvas_get_meta_data st.meta key = data) :
    set_meta_data createOk performOk st key data = st := by
  unfold set_meta_data
  rw [if_pos h]

theorem set_meta_data_noop_witness :
    set_meta_data true true
        { meta := [("guide", "10 20")], constructed := 0, performed := [] } "guide" "10 20" =
      { meta := [("guide", "10 20")], constructed := 0, performed := [] } :=
  set_meta_data_noop true true
    { meta := [("guide", "10 20")], constructed := 0, performed := [] } "guide" "10 20"
    (by decide)

/-! ### Value edits (CanvasInterface::change_value_at_time, lines 1196-1244)

A ValueDesc is abstracted to the canvas handle it resolves through plus an
opaque address; a ValueBase to an opaque datum plus the static
meta-property copied by copy_properties_of.  ValueDesc::get_value(time) is
an environment oracle, and applying the ValueDescSet action is recorded as
an AppliedValueSet entry carrying exactly the parameters the source binds. -/

structure ValueDescM where
  canvas : Option ℕ
  addr : ℕ
deriving DecidableEq

structure ValueBaseM where
  data : ℕ
  staticFlag : Bool
deriving DecidableEq

/-- Modelled from the spec: ValueBase's equality operator compares the held
value; meta-properties such as the static flag are carried separately and
transferred by copy_properties_of. -/
def vbEq (a b : ValueBaseM) : Bool := a.data == b.data

/-- ValueBase::copy_properties_of: the new value inherits the old value's
properties. -/
def copy_properties_of (n o : ValueBaseM) : ValueBaseM := { n with staticFlag := o.staticFlag }

structure AppliedValueSet where
  canvas : ℕ
  time : ℚ
  desc : ValueDescM
  value : ValueBaseM
  lockParam : Bool
deriving DecidableEq

structure CVEnv where
  rootOf : ℕ → ℕ
  instanceFound : ℕ → Bool
  getValue : ValueDescM → ℚ → ValueBaseM
  createOk : Bool
  performOk : Bool

structure CVState where
  errors : ℕ
  forwardedTo : List ℕ
  constructed : ℕ
  applied : List AppliedValueSet
deriving DecidableEq

/-- Local tail of change_value_at_time (lines 1230-1243): create the
ValueDescSet action (a null creation returns false without an error), bind
canvas, time, value_desc, new_value and — only when the flag is set — the
lock_animation parameter, and return the perform result. -/
def change_value_local (env : CVEnv) (thisCanvas : ℕ) (value_desc : ValueDescM)
    (new_value : ValueBaseM) (time : ℚ) (lock_animation : Bool) (st : CVState) :
    Bool × CVState :=
  if env.createOk = false then (false, st)
  else
    let st1 := { st with constructed := st.constructed + 1 }
    if env.performOk = true then
      (true, { st1 with applied := st1.applied ++
        [{ canvas := thisCanvas, time := time, desc := value_desc,
           value := new_value, lockParam := lock_animation }] })
    else (false, st1)

/-- CanvasInterface::change_value_at_time translated from lines 1196-1244:
no change means an immediate true; otherwise the new value inherits the old
value's properties and, when the descriptor's canvas belongs to a different
root tree, the request is forwarded to that root's instance's interface for
that canvas — with the omitted lock_animation argument taking the
declaration's fixed default (false) — or fails with one error when no such
instance is open; otherwise a ValueDescSet action is built and performed
locally.  Fuel bounds the forwarding depth (one step suffices, since the
forwarded interface's canvas shares the descriptor's root). -/
def change_value_at_time (env : CVEnv) :
    ℕ → ℕ → ValueDescM → ValueBaseM → ℚ → Bool → CVState → Bool × CVState
  | 0, _, _, _, _, _, st => (false, st)
  | fuel + 1, thisCanvas, value_desc, new_value, time, lock_animation, st =>
    let old_value := env.getValue value_desc time
    if vbEq new_value old_value = true then (true, st)
    else
      let new_value2 := copy_properties_of new_value old_value
      match value_desc.canvas with
      | some c =>
        if env.rootOf c ≠ env.rootOf thisCanvas then
          if env.instanceFound (env.rootOf c) = true then
            change_value_at_time env fuel c value_desc new_value2 time false
              { st with forwardedTo := st.forwardedTo ++ [c] }
          else (false, { st with errors := st.errors + 1 })
        else change_value_local env thisCanvas value_desc new_value2 time lock_animation st
      | none => change_value_local env thisCanvas value_desc new_value2 time lock_animation st

/-- C6: for every descriptor, value, and time, change_value_at_time returns
true and constructs no Action (and performs no document mutation) whenever
the new value equals the value already addressed by the descriptor at that
time. -/
theorem change_value_noop (env : CVEnv) (fuel thisCanvas : ℕ) (value_desc : ValueDescM)
    (new_value : ValueBaseM) (time : ℚ) (lock : Bool) (st : CVState)
    (h : vbEq new_value (env.getValue value_desc time) = true) :
    change_value_at_time env (fuel + 1) thisCanvas value_desc new_value time lock st =
      (true, st) := by
  unfold change_value_at_time
  rw [if_pos h]

/-- Oracle environment used by the concrete change-value instances: canvas
ids 0 and 1 live in root 0, canvas 2 in root 2; root 2 has no open
instance; every addressed value reads as datum 7 with the static flag
clear. -/
def cvEnvA : CVEnv :=
  { rootOf := fun n => if n ≤ 1 then 0 else n,
    instanceFound := fun _ => false,
    getValue := fun _ _ => { data := 7, staticFlag := false },
    createOk := true,
    performOk := true }

/-- Empty starting state for the change-value instances. -/
def cvSt0 : CVState := { errors := 0, forwardedTo := [], constructed := 0, applied := [] }

theorem change_value_noop_witness :
    change_value_at_time cvEnvA 1 0 { canvas := some 2, addr := 5 }
        { data := 7, staticFlag := true } 0 true cvSt0 = (true, cvSt0) :=
  change_value_noop cvEnvA 0 0 { canvas := some 2, addr := 5 }
    { data := 7, staticFlag := true } 0 true cvSt0 (by decide)

/-- C7: for every descriptor whose owning document belongs to a different
root tree than this mediator's document (and whose new value differs from
the current value), change_value_at_time never mutates the local document
(every new applied action is bound to the descriptor's own canvas), it
forwards the request to the mediator registered for that root, and when no
instance for that root is open it reports exactly one error and returns
false. -/
theorem change_value_cross_root (env : CVEnv) (fuel thisCanvas : ℕ)
    (value_desc : ValueDescM) (new_value : ValueBaseM) (time : ℚ) (lock : Bool)
    (st : CVState) (c : ℕ)
    (hc : value_desc.canvas = some c)
    (hr : env.rootOf c ≠ env.rootOf thisCanvas)
    (hv : vbEq new_value (env.getValue value_desc time) = false) :
    (env.instanceFound (env.rootOf c) = false →
      change_value_at_time env (fuel + 2) thisCanvas value_desc new_value time lock st =
        (false, { st with errors := st.errors + 1 })) ∧
    (env.instanceFound (env.rootOf c) = true →
      (change_value_at_time env (fuel + 2) thisCanvas value_desc new_value time lock
          st).2.forwardedTo = st.forwardedTo ++ [c] ∧
      (change_value_at_time env (fuel + 2) thisCanvas value_desc new_value time lock
          st).2.errors = st.errors ∧
      ∀ a ∈ (change_value_at_time env (fuel + 2) thisCanvas value_desc new_value time lock
          st).2.applied, a ∈ st.applied ∨ a.canvas = c) := by
  have hv2 : vbEq (copy_properties_of new_value (env.getValue value_desc time))
      (env.getValue value_desc time) = false := by
    simpa [vbEq, copy_properties_of] using hv
  rw [show fuel + 2 = (fuel + 1) + 1 from rfl]
  unfold change_value_at_time
  rw [if_neg (by rw [hv]; exact Bool.false_ne_true)]
  dsimp only
  rw [hc]
  dsimp only
  rw [if_pos hr]
  constructor
  · intro hi
    rw [hi]
    simp
  · intro hi
    rw [hi, if_pos rfl]
    unfold change_value_at_time
    rw [if_neg (by rw [hv2]; exact Bool.false_ne_true)]
    dsimp only
    rw [hc]
    dsimp only
    rw [if_neg (by simp)]
    unfold change_value_local
    by_cases hco : env.createOk = false
    · rw [if_pos hco]
      refine ⟨rfl, rfl, ?_⟩
      intro a ha
      exact Or.inl ha
    · rw [if_neg hco]
      dsimp only
      by_cases hpo : env.performOk = true
      · rw [if_pos hpo]
        refine ⟨rfl, rfl, ?_⟩
        intro a ha
        rw [List.mem_append] at ha
        rcases ha with h | h
        · exact Or.inl h
        · right
          rw [List.mem_singleton] at h
          rw [h]
      · rw [if_neg hpo]
        refine ⟨rfl, rfl, ?_⟩
        intro a ha
        exact Or.inl ha

theorem change_value_cross_root_witness :
    change_value_at_time cvEnvA 2 0 { canvas := some 2, addr := 5 }
        { data := 9, staticFlag := false } 0 true cvSt0 =
      (false, { cvSt0 with errors := 1 }) := by
  have h := (change_value_cross_root cvEnvA 0 0 { canvas := some 2, addr := 5 }
    { data := 9, staticFlag := false } 0 true cvSt0 2 rfl (by decide) (by decide)).1 rfl
  exact h

/-- C10: when change_value_at_time forwards a cross-root-tree edit to the
other tree's mediator, only the descriptor, the new value, and the time are
passed on — the caller's lock_animation flag is not forwarded — so for
cross-tree descriptors the result is independent of the lock_animation
flag the caller supplied. -/
theorem change_value_lock_independent (env : CVEnv) (fuel thisCanvas : ℕ)
    (value_desc : ValueDescM) (new_value : ValueBaseM) (time : ℚ) (st : CVState) (c : ℕ)
    (hc : value_desc.canvas = some c)
    (hr : env.rootOf c ≠ env.rootOf thisCanvas) :
    change_value_at_time env fuel thisCanvas value_desc new_value time true st =
      change_value_at_time env fuel thisCanvas value_desc new_value time false st := by
  cases fuel with
  | zero => rfl
  | succ n =>
    unfold change_value_at_time
    by_cases hv : vbEq new_value (env.getValue value_desc time) = true
    · rw [if_pos hv, if_pos hv]
    · rw [if_neg hv, if_neg hv]
      dsimp only
      rw [hc]
      dsimp only
      rw [if_pos hr, if_pos hr]

theorem change_value_lock_independent_witness :
    change_value_at_time cvEnvA 2 0 { canvas := some 2, addr := 5 }
        { data := 9, staticFlag := false } 0 true cvSt0 =
      change_value_at_time cvEnvA 2 0 { canvas := some 2, addr := 5 }
        { data := 9, staticFlag := false } 0 false cvSt0 :=
  change_value_lock_independent cvEnvA 2 0 { canvas := some 2, addr := 5 }
    { data := 9, staticFlag := false } 0 cvSt0 2 rfl (by decide)

/-! ### File pipeline (CanvasInterface::import, lines 742-943)

The pipeline dispatches on the lower-cased extension and composes the
primitive operations above.  The observable state is the ordered log of
document-mutating actions applied inside the open PassiveGrouper, the
notification-sink error count, and whether the group was cancelled.  Every
fallible collaborator call is an oracle field; throws that escape the
function are the `thrown` outcome, and the dereference of a null group
layer in the svg branch is the `crashed` outcome.  PassiveGrouper::cancel
is modelled from the spec: it reverts every action applied since the group
opened (restoring the document log to its entry value) and marks the group
cancelled. -/

inductive ImpOutcome where
  | layerRet : String → ImpOutcome
  | nullRet : ImpOutcome
  | thrown : ImpOutcome
  | crashed : ImpOutcome
deriving DecidableEq

structure ImpState where
  doc : List String
  errors : ℕ
  cancelled : Bool
deriving DecidableEq

structure ImpEnv where
  ext : String
  layerCreateOk : String → Bool
  addCreateOk : String → Bool
  addReady : String → Bool
  addPerformOk : String → Bool
  soundField : String
  removeCreateOk : Bool
  removeReady : Bool
  removeOk : Bool
  fileSystemOk : Bool
  openCanvasOk : Bool
  setCanvasParamOk : Bool
  childrenLockOk : Bool
  rasterKnown : Bool
  setFilenameOk : Bool
  layerSizeOk : Bool
  encapsCreateOk : Bool
  encapsReady : Bool
  encapsOk : Bool

/-- layer_add_action (lines 406-426) as invoked by the pipeline, over the
pipeline state: a performed LayerAdd is appended to the document log, a
not-ready or failed action adds one error and no entry. -/
def addActionOnDoc (env : ImpEnv) (kind : String) (st : ImpState) : Bool × ImpState :=
  if env.addCreateOk kind = false then (false, st)
  else if env.addReady kind = false then (false, { st with errors := st.errors + 1 })
  else if env.addPerformOk kind = true then
    (true, { st with doc := st.doc ++ ["LayerAdd:" ++ kind] })
  else (false, { st with errors := st.errors + 1 })

/-- add_layer_to (lines 451-465, depth 0 at every pipeline call site):
failed layer creation returns no layer; otherwise defaults are set on the
layer, the LayerAdd action is attempted with its result ignored, and the
layer is returned. -/
def add_layer_to (env : ImpEnv) (kind : String) (st : ImpState) : Option String × ImpState :=
  if env.layerCreateOk kind = false then (none, st)
  else (some kind, (addActionOnDoc env kind st).2)

/-- Lip-sync branch (lines 765-807): the switch layer, then optionally the
sound layer; every failure throws a String that escapes the function
uncaught, with the group left uncancelled. -/
def lipsyncBranch (env : ImpEnv) (st : ImpState) : ImpOutcome × ImpState :=
  if env.layerCreateOk "switch" = false then (.thrown, st)
  else
    let r := addActionOnDoc env "switch" st
    if r.1 = false then (.thrown, r.2)
    else if env.soundField = "" then (.layerRet "switch", r.2)
    else if env.layerCreateOk "sound" = false then (.thrown, r.2)
    else
      let r2 := addActionOnDoc env "sound" r.2
      if r2.1 = false then (.thrown, r2.2)
      else (.layerRet "switch", r2.2)

/-- Audio branch (lines 809-823): one sound layer; failures throw a String
that escapes the function uncaught. -/
def audioBranch (env : ImpEnv) (st : ImpState) : ImpOutcome × ImpState :=
  if env.layerCreateOk "sound" = false then (.thrown, st)
  else
    let r := addActionOnDoc env "sound" st
    if r.1 = false then (.thrown, r.2)
    else (.layerRet "sound", r.2)

/-- Svg branch (lines 825-851): a group layer and an auxiliary svg layer
are added; when the auxiliary layer exists its canvas is copied to the
group layer (a crash when the group handle is null) and a LayerRemove
action deletes it, with not-ready/failed removal returning a null handle
without cancelling. -/
def svgBranch (env : ImpEnv) (st : ImpState) : ImpOutcome × ImpState :=
  let r1 := add_layer_to env "group" st
  let r2 := add_layer_to env "svg_layer" r1.2
  match r2.1 with
  | some _ =>
    match r1.1 with
    | none => (.crashed, r2.2)
    | some k =>
      if env.removeCreateOk = false then (.nullRet, r2.2)
      else if env.removeReady = false then (.nullRet, { r2.2 with errors := r2.2.errors + 1 })
      else if env.removeOk = false then (.nullRet, { r2.2 with errors := r2.2.errors + 1 })
      else (.layerRet k, { r2.2 with doc := r2.2.doc ++ ["LayerRemove:svg_layer"] })
  | none =>
    match r1.1 with
    | some k => (.layerRet k, r2.2)
    | none => (.nullRet, r2.2)

/-- Sif branch (lines 854-886): container and composition opening, a group
layer, the canvas and children_lock parameters, and the external-canvas
registration; every throw is caught at the branch boundary and converted
into one error plus a null return, without cancelling the group. -/
def sifBranch (env : ImpEnv) (st : ImpState) : ImpOutcome × ImpState :=
  if env.fileSystemOk = false then (.nullRet, { st with errors := st.errors + 1 })
  else if env.openCanvasOk = false then (.nullRet, { st with errors := st.errors + 1 })
  else
    let r := add_layer_to env "group" st
    match r.1 with
    | none => (.nullRet, { r.2 with errors := r.2.errors + 1 })
    | some _ =>
      if env.setCanvasParamOk = false then (.nullRet, { r.2 with errors := r.2.errors + 1 })
      else if env.childrenLockOk = false then (.nullRet, { r.2 with errors := r.2.errors + 1 })
      else (.layerRet "group", { r.2 with doc := r.2.doc ++ ["RegisterExternalCanvas"] })

/-- Raster branch (lines 888-942): unknown importer types report and return
null; inside the try block, layer creation, the filename parameter and the
size update throw — caught by the handler that reports one error, cancels
the group (restoring the entry document log) and returns null — while a
failed LayerEncapsulateSwitch creation/readiness/perform returns null
without cancelling. -/
def rasterBranch (env : ImpEnv) (st : ImpState) : ImpOutcome × ImpState :=
  if env.rasterKnown = false then (.nullRet, { st with errors := st.errors + 1 })
  else
    let r := add_layer_to env "Import" st
    match r.1 with
    | none =>
      (.nullRet, { r.2 with errors := r.2.errors + 1, doc := st.doc, cancelled := true })
    | some _ =>
      if env.setFilenameOk = false then
        (.nullRet, { r.2 with errors := r.2.errors + 1, doc := st.doc, cancelled := true })
      else if env.layerSizeOk = false then
        (.nullRet, { r.2 with errors := r.2.errors + 1, doc := st.doc, cancelled := true })
      else if env.encapsCreateOk = false then (.nullRet, r.2)
      else if env.encapsReady = false then (.nullRet, { r.2 with errors := r.2.errors + 1 })
      else if env.encapsOk = false then (.nullRet, { r.2 with errors := r.2.errors + 1 })
      else
        (.layerRet "switch-group",
         { r.2 with doc := r.2.doc ++ ["LayerEncapsulateSwitch:Import"] })

/-- CanvasInterface::import translated from lines 742-943: the extension
check and the dispatch over the five pipeline branches, all inside one
PassiveGrouper opened at entry. -/
def file_import (env : ImpEnv) (st : ImpState) : ImpOutcome × ImpState :=
  if env.ext = "" then (.nullRet, { st with errors := st.errors + 1 })
  else if env.ext = "pgo" ∨ env.ext = "tsv" ∨ env.ext = "xml" then lipsyncBranch env st
  else if env.ext = "wav" ∨ env.ext = "ogg" ∨ env.ext = "mp3" then audioBranch env st
  else if env.ext = "svg" then svgBranch env st
  else if env.ext = "sif" ∨ env.ext = "sifz" then sifBranch env st
  else rasterBranch env st

theorem addActionOnDoc_pres (env : ImpEnv) (kind : String) (st : ImpState) :
    ((addActionOnDoc env kind st).2).cancelled = st.cancelled := by
  unfold addActionOnDoc
  split_ifs <;> rfl

theorem add_layer_to_pres (env : ImpEnv) (kind : String) (st : ImpState) :
    ((add_layer_to env kind st).2).cancelled = st.cancelled := by
  unfold add_layer_to
  split_ifs
  · rfl
  · exact addActionOnDoc_pres env kind st

theorem lipsyncBranch_pres (env : ImpEnv) (st : ImpState) :
    (lipsyncBranch env st).2.cancelled = st.cancelled := by
  unfold lipsyncBranch
  dsimp only
  split_ifs <;> simp [addActionOnDoc_pres]

theorem audioBranch_pres (env : ImpEnv) (st : ImpState) :
    (audioBranch env st).2.cancelled = st.cancelled := by
  unfold audioBranch
  dsimp only
  split_ifs <;> simp [addActionOnDoc_pres]

theorem svgBranch_pres (env : ImpEnv) (st : ImpState) :
    (svgBranch env st).2.cancelled = st.cancelled := by
  unfold svgBranch
  dsimp only
  split <;> split <;> (try split_ifs) <;> simp [add_layer_to_pres]

theorem sifBranch_pres (env : ImpEnv) (st : ImpState) :
    (sifBranch env st).2.cancelled = st.cancelled := by
  unfold sifBranch
  dsimp only
  split_ifs <;>
    first
      | rfl
      | (split <;> simp [add_layer_to_pres])

/-- Raster extension test: the extension is none of the specially-handled
ones (and not empty), so control reaches the importer-book branch. -/
def isRasterExt (ext : String) : Bool :=
  !(ext == "") && !(ext == "pgo") && !(ext == "tsv") && !(ext == "xml") &&
  !(ext == "wav") && !(ext == "ogg") && !(ext == "mp3") && !(ext == "svg") &&
  !(ext == "sif") && !(ext == "sifz")

/-- Condition under which the pipeline cancels its group: the raster branch
runs, the importer book knows the extension, and one of the three throwing
steps of its try block fails. -/
def rasterThrowCond (env : ImpEnv) : Bool :=
  isRasterExt env.ext && env.rasterKnown &&
    (!(env.layerCreateOk "Import") || !env.setFilenameOk || !env.layerSizeOk)

theorem rasterThrowCond_eq_false (env : ImpEnv) (h : isRasterExt env.ext = false) :
    rasterThrowCond env = false := by
  unfold rasterThrowCond
  simp [h]

theorem rasterBranch_spec (env : ImpEnv) (st : ImpState) (h : st.cancelled = false) :
    ((rasterBranch env st).2.cancelled = true ↔
      (env.rasterKnown &&
        (!(env.layerCreateOk "Import") || !env.setFilenameOk || !env.layerSizeOk)) = true) ∧
    ((rasterBranch env st).2.cancelled = true →
      (rasterBranch env st).2.doc = st.doc ∧ (rasterBranch env st).1 = ImpOutcome.nullRet) := by
  unfold rasterBranch add_layer_to
  by_cases hk : env.rasterKnown = false
  · simp [hk, h]
  · replace hk : env.rasterKnown = true := by
      cases hrk : env.rasterKnown
      · exact absurd hrk hk
      · rfl
    by_cases h1 : env.layerCreateOk "Import" = false
    · simp [hk, h1]
    · replace h1 : env.layerCreateOk "Import" = true := by
        cases hc : env.layerCreateOk "Import"
        · exact absurd hc h1
        · rfl
      have hpres := addActionOnDoc_pres env "Import" st
      by_cases h2 : env.setFilenameOk = false
      · simp [hk, h1, h2]
      · replace h2 : env.setFilenameOk = true := by
          cases hc : env.setFilenameOk
          · exact absurd hc h2
          · rfl
        by_cases h3 : env.layerSizeOk = false
        · simp [hk, h1, h2, h3]
        · replace h3 : env.layerSizeOk = true := by
            cases hc : env.layerSizeOk
            · exact absurd hc h3
            · rfl
          by_cases h4 : env.encapsCreateOk = false
          · simp [hk, h1, h2, h3, h4, hpres, h]
          · by_cases h5 : env.encapsReady = false
            · simp [hk, h1, h2, h3, h4, h5, hpres, h]
            · by_cases h6 : env.encapsOk = false
              · simp [hk, h1, h2, h3, h4, h5, h6, hpres, h]
              · simp [hk, h1, h2, h3, h4, h5, h6, hpres, h]

/-- Pipeline environment for the rollback counterexample: an svg file whose
auxiliary-layer LayerRemove action reports not ready; everything else
succeeds. -/
def c1Env : ImpEnv :=
  { ext := "svg",
    layerCreateOk := fun _ => true,
    addCreateOk := fun _ => true,
    addReady := fun _ => true,
    addPerformOk := fun _ => true,
    soundField := "",
    removeCreateOk := true,
    removeReady := false,
    removeOk := true,
    fileSystemOk := true, openCanvasOk := true, setCanvasParamOk := true,
    childrenLockOk := true, rasterKnown := true, setFilenameOk := true,
    layerSizeOk := true, encapsCreateOk := true, encapsReady := true, encapsOk := true }

/-- Empty pipeline state: no applied actions, no errors, group open. -/
def imp0 : ImpState := { doc := [], errors := 0, cancelled := false }

/-- C1 counterexample: an svg file whose aux-layer LayerRemove action is
not ready makes the pipeline return a null layer handle while the two
already-applied LayerAdd actions stay in the document and the transaction
group is never cancelled, so the observable document state differs from the
state before the call. -/
theorem rollback_on_failure_counterexample :
    (file_import c1Env imp0).1 = ImpOutcome.nullRet ∧
    (file_import c1Env imp0).2.doc = ["LayerAdd:group", "LayerAdd:svg_layer"] ∧
    (file_import c1Env imp0).2.doc ≠ imp0.doc ∧
    (file_import c1Env imp0).2.cancelled = false := by
  refine ⟨?_, ?_, ?_, ?_⟩ <;> decide

/-- C1 amended: the transaction group is cancelled exactly when an
exception is thrown inside the raster branch's try block (layer creation,
the filename parameter, or the size update fails for a known raster
extension), and in that case the pipeline returns a null handle with the
document state restored; every other failure path — svg, sif/sifz, the
raster encapsulate action — returns a null handle (or lets the lipsync and
audio exceptions escape) with the group left uncancelled. -/
theorem rollback_on_failure_amended (env : ImpEnv) (st : ImpState)
    (h : st.cancelled = false) :
    ((file_import env st).2.cancelled = true ↔ rasterThrowCond env = true) ∧
    ((file_import env st).2.cancelled = true →
      (file_import env st).2.doc = st.doc ∧ (file_import env st).1 = ImpOutcome.nullRet) := by
  unfold file_import
  by_cases h0 : env.ext = ""
  · rw [if_pos h0]
    have hrt : rasterThrowCond env = false :=
      rasterThrowCond_eq_false env (by rw [h0]; decide)
    simp [h, hrt]
  · rw [if_neg h0]
    by_cases h1 : env.ext = "pgo" ∨ env.ext = "tsv" ∨ env.ext = "xml"
    · rw [if_pos h1]
      have hrt : rasterThrowCond env = false :=
        rasterThrowCond_eq_false env (by rcases h1 with h1 | h1 | h1 <;> rw [h1] <;> decide)
      simp [lipsyncBranch_pres, h, hrt]
    · rw [if_neg h1]
      by_cases h2 : env.ext = "wav" ∨ env.ext = "ogg" ∨ env.ext = "mp3"
      · rw [if_pos h2]
        have hrt : rasterThrowCond env = false :=
          rasterThrowCond_eq_false env (by rcases h2 with h2 | h2 | h2 <;> rw [h2] <;> decide)
        simp [audioBranch_pres, h, hrt]
      · rw [if_neg h2]
        by_cases h3 : env.ext = "svg"
        · rw [if_pos h3]
          have hrt : rasterThrowCond env = false :=
            rasterThrowCond_eq_false env (by rw [h3]; decide)
          simp [svgBranch_pres, h, hrt]
        · rw [if_neg h3]
          by_cases h4 : env.ext = "sif" ∨ env.ext = "sifz"
          · rw [if_pos h4]
            have hrt : rasterThrowCond env = false :=
              rasterThrowCond_eq_false env (by rcases h4 with h4 | h4 <;> rw [h4] <;> decide)
            simp [sifBranch_pres, h, hrt]
          · rw [if_neg h4]
            push_neg at h1 h2 h4
            have hre : isRasterExt env.ext = true := by
              unfold isRasterExt
              simp only [Bool.and_eq_true, Bool.not_eq_true', beq_eq_false_iff_ne]
              exact ⟨⟨⟨⟨⟨⟨⟨⟨⟨h0, h1.1⟩, h1.2.1⟩, h1.2.2⟩, h2.1⟩, h2.2.1⟩, h2.2.2⟩, h3⟩,
                h4.1⟩, h4.2⟩
            have hs := rasterBranch_spec env st h
            have hrt : rasterThrowCond env =
                (env.rasterKnown &&
                  (!(env.layerCreateOk "Import") || !env.setFilenameOk ||
                    !env.layerSizeOk)) := by
              unfold rasterThrowCond
              rw [hre]
              rw [Bool.true_and]
            rw [hrt]
            exact hs

/-- Pipeline environment exercising the raster-branch cancellation: a png
file whose filename parameter cannot be set. -/
def c1EnvB : ImpEnv :=
  { c1Env with ext := "png", setFilenameOk := false }

theorem rollback_on_failure_amended_witness :
    (file_import c1EnvB imp0).2.cancelled = true ∧
    (file_import c1EnvB imp0).2.doc = imp0.doc ∧
    (file_import c1EnvB imp0).1 = ImpOutcome.nullRet := by
  have h := rollback_on_failure_amended c1EnvB imp0 rfl
  have hc : (file_import c1EnvB imp0).2.cancelled = true := h.1.mpr (by decide)
  exact ⟨hc, (h.2 hc).1, (h.2 hc).2⟩

/-! ### Sequence pipeline (CanvasInterface::import_sequence, lines 946-1092)

Each input file is abstracted to the boolean outcomes of its fallible
steps plus an opaque rendered-surface identifier whose equals_to predicate
is equality.  The per-file state is an accumulator mirroring the loop's
locals (prev_surface, layers_count, first_imported_layer) together with the
document log, the errors out-parameter append count, the notification-sink
call count, the waypoints appended to the animated selector (time and the
two interpolations), the layers bound to the LayerRemove action, and the
layers bound to the LayerEncapsulateSwitch action.  A per-file throw is an
Except.error carrying the state at the catch, which the function converts
into a group cancellation and a false return. -/

inductive Interp where
  | constant
  | tcb
deriving DecidableEq

structure SeqFile where
  hasExt : Bool
  importable : Bool
  createOk : Bool
  addCreateOk : Bool
  addOk : Bool
  setFilenameOk : Bool
  isBitmap : Bool
  lockOk : Bool
  surface : ℕ
  sizeOk : Bool
deriving DecidableEq

structure SeqAcc where
  doc : List String
  errors : ℕ
  uiErrors : ℕ
  prevSurface : Option ℕ
  layersCount : ℕ
  firstImported : Option ℕ
  waypoints : List (ℚ × Interp × Interp)
  removal : List ℕ
  switchLayers : List ℕ
deriving DecidableEq

/-- LayerAdd attempt inside the sequence's add_layer_to calls (lines
406-426 over the sequence state): a performed action appends a document
entry, a not-ready or failed one reports one error, a null creation fails
silently. -/
def seqAddAction (f : SeqFile) (acc : SeqAcc) : SeqAcc :=
  if f.addCreateOk = false then acc
  else if f.addOk = true then { acc with doc := acc.doc ++ ["LayerAdd:Import"] }
  else { acc with uiErrors := acc.uiErrors + 1 }

/-- Retained-frame tail of the loop body (lines 1027-1043): remember the
first imported layer, update the layer size (a throw point), bind the layer
to the encapsulate action, and append one waypoint at time
layers_count/fps with constant interpolation on both sides. -/
def seqRetain (fps : ℚ) (idx : ℕ) (f : SeqFile) (acc : SeqAcc) : Except SeqAcc SeqAcc :=
  let acc1 := { acc with firstImported := match acc.firstImported with
                                          | some i => some i
                                          | none => some idx }
  if f.sizeOk = false then .error { acc1 with errors := acc1.errors + 1 }
  else
    .ok { acc1 with
      switchLayers := acc1.switchLayers ++ [idx],
      waypoints := acc1.waypoints ++
        [(((acc1.layersCount : ℚ)) / fps, Interp.constant, Interp.constant)],
      layersCount := acc1.layersCount + 1 }

/-- One iteration of the sequence loop (lines 977-1051): extension and
importer checks continue with an errors note; layer creation, the filename
parameter, the bitmap cast and the surface lock throw; with remove_dups
set, a surface equal to the previous retained frame's surface is bound to
the LayerRemove action and gets no waypoint, anything else becomes the new
previous surface and is retained; layers_count grows for every processed
file, duplicates included. -/
def seqStep (removeDups : Bool) (fps : ℚ) (idx : ℕ) (f : SeqFile) (acc : SeqAcc) :
    Except SeqAcc SeqAcc :=
  if f.hasExt = false then .ok { acc with errors := acc.errors + 1 }
  else if f.importable = false then .ok { acc with errors := acc.errors + 1 }
  else
    if f.createOk = false then .error { acc with errors := acc.errors + 1 }
    else
      let acc1 := seqAddAction f acc
      if f.setFilenameOk = false then .error { acc1 with errors := acc1.errors + 1 }
      else
        if removeDups = true then
          if f.isBitmap = false then .error { acc1 with errors := acc1.errors + 1 }
          else if f.lockOk = false then .error { acc1 with errors := acc1.errors + 1 }
          else if acc1.prevSurface = some f.surface then
            .ok { acc1 with removal := acc1.removal ++ [idx],
                            layersCount := acc1.layersCount + 1 }
          else
            seqRetain fps idx f { acc1 with prevSurface := some f.surface }
        else seqRetain fps idx f acc1

/-- Loop over the ordered input set, aborting on the first per-file throw. -/
def seqLoop (removeDups : Bool) (fps : ℚ) :
    List SeqFile → ℕ → SeqAcc → Except SeqAcc SeqAcc
  | [], _, acc => .ok acc
  | f :: rest, idx, acc =>
    match seqStep removeDups fps idx f acc with
    | .error e => .error e
    | .ok acc2 => seqLoop removeDups fps rest (idx + 1) acc2

structure SeqEnv where
  encapsCreateOk : Bool
  encapsReady : Bool
  encapsOk : Bool
  dRemoveOk : Bool
  connectCreateOk : Bool
  connectReady : Bool
  connectOk : Bool

structure SeqResult where
  ok : Bool
  cancelled : Bool
  acc : SeqAcc
deriving DecidableEq

/-- Fresh accumulator over the entry document log. -/
def seqAcc0 (doc0 : List String) : SeqAcc :=
  { doc := doc0, errors := 0, uiErrors := 0, prevSurface := none, layersCount := 0,
    firstImported := none, waypoints := [], removal := [], switchLayers := [] }

/-- Outer-catch failure: one specific notification plus the generic one,
then the group cancellation restoring the entry document log. -/
def cancelSeq (doc0 : List String) (acc : SeqAcc) : SeqResult :=
  { ok := false, cancelled := true,
    acc := { acc with uiErrors := acc.uiErrors + 2, doc := doc0 } }

/-- LayerParamConnect tail (lines 1065-1081), reached when something was
imported: creation, readiness and perform failures all throw to the outer
catch. -/
def seqConnect (env : SeqEnv) (doc0 : List String) (acc : SeqAcc) : SeqResult :=
  match acc.firstImported with
  | none => { ok := true, cancelled := false, acc := acc }
  | some _ =>
    if env.connectCreateOk = false then cancelSeq doc0 acc
    else if env.connectReady = false then cancelSeq doc0 acc
    else if env.connectOk = false then cancelSeq doc0 acc
    else { ok := true, cancelled := false,
           acc := { acc with doc := acc.doc ++ ["LayerParamConnect:layer_name"] } }

/-- CanvasInterface::import_sequence translated from lines 946-1092: the
encapsulate-action creation check, the per-file loop, the no-layers and
encapsulate ready/perform checks, the duplicate-removal action (modelled
from the spec: a LayerRemove is ready exactly when at least one layer was
bound to it, i.e. when some duplicate was recorded), and the
LayerParamConnect tail; every failure inside the outer try cancels the
group and returns false. -/
def sequence_import (env : SeqEnv) (removeDups : Bool) (fps : ℚ) (files : List SeqFile)
    (doc0 : List String) : SeqResult :=
  if env.encapsCreateOk = false then cancelSeq doc0 (seqAcc0 doc0)
  else
    match seqLoop removeDups fps files 0 (seqAcc0 doc0) with
    | .error e => { ok := false, cancelled := true, acc := { e with doc := doc0 } }
    | .ok acc =>
      if acc.layersCount = 0 then cancelSeq doc0 acc
      else if env.encapsReady = false then cancelSeq doc0 acc
      else if env.encapsOk = false then cancelSeq doc0 acc
      else
        let acc1 := { acc with doc := acc.doc ++ ["LayerEncapsulateSwitch"] }
        if removeDups = true ∧ acc1.removal ≠ [] then
          if env.dRemoveOk = false then cancelSeq doc0 acc1
          else seqConnect env doc0 { acc1 with doc := acc1.doc ++ ["LayerRemove:duplicates"] }
        else seqConnect env doc0 acc1

/-- Input file whose every fallible step succeeds, rendering surface s. -/
def goodFile (s : ℕ) : SeqFile :=
  { hasExt := true, importable := true, createOk := true, addCreateOk := true,
    addOk := true, setFilenameOk := true, isBitmap := true, lockOk := true,
    surface := s, sizeOk := true }

/-- Reference accumulator for a run of all-successful raster inputs with
remove_dups set: an input equal to the previous retained surface is bound
for removal and gets no waypoint; a retained input gets one waypoint at
time layers_count/fps — the count of all previously processed inputs,
duplicates included — with constant interpolation on both sides. -/
def seqModel (fps : ℚ) : List ℕ → ℕ → SeqAcc → SeqAcc
  | [], _, acc => acc
  | s :: rest, idx, acc =>
    if acc.prevSurface = some s then
      seqModel fps rest (idx + 1)
        { acc with doc := acc.doc ++ ["LayerAdd:Import"],
                   removal := acc.removal ++ [idx],
                   layersCount := acc.layersCount + 1 }
    else
      seqModel fps rest (idx + 1)
        { acc with doc := acc.doc ++ ["LayerAdd:Import"],
                   prevSurface := some s,
                   firstImported := match acc.firstImported with
                                    | some i => some i
                                    | none => some idx,
                   switchLayers := acc.switchLayers ++ [idx],
                   waypoints := acc.waypoints ++
                     [(((acc.layersCount : ℚ)) / fps, Interp.constant, Interp.constant)],
                   layersCount := acc.layersCount + 1 }

theorem seqLoop_goodFiles (fps : ℚ) (surfaces : List ℕ) :
    ∀ (idx : ℕ) (acc : SeqAcc),
      seqLoop true fps (surfaces.map goodFile) idx acc =
        .ok (seqModel fps surfaces idx acc) := by
  induction surfaces with
  | nil => intro idx acc; rfl
  | cons s rest ih =>
    intro idx acc
    rw [List.map_cons]
    unfold seqLoop seqStep seqAddAction seqRetain seqModel
    by_cases hp : acc.prevSurface = some s
    · simp [goodFile, hp, ih]
    · simp [goodFile, hp, ih]

/-- All-success collaborator environment for the sequence pipeline. -/
def seqEnvAll : SeqEnv :=
  { encapsCreateOk := true, encapsReady := true, encapsOk := true, dRemoveOk := true,
    connectCreateOk := true, connectReady := true, connectOk := true }

/-- C4 counterexample: three successfully imported raster files whose
second renders identically to the first, with remove_dups set and frame
rate 1, produce waypoints at times 0 and 2 (= 2/frame_rate) for the two
retained frames — not 0 and 1/frame_rate = 1 as the claim states — while
the duplicate is indeed recorded for removal with no waypoint of its own. -/
theorem sequence_waypoints_counterexample :
    (sequence_import seqEnvAll true 1 [goodFile 5, goodFile 5, goodFile 7] []).ok = true ∧
    ((sequence_import seqEnvAll true 1 [goodFile 5, goodFile 5, goodFile 7] []).acc.waypoints.map
        (fun w => w.1)) = [0, 2] ∧
    (sequence_import seqEnvAll true 1 [goodFile 5, goodFile 5, goodFile 7] []).acc.removal = [1] ∧
    ¬ ([(0 : ℚ), 2] = [0, 1 / (1 : ℚ)]) := by
  have hloop : seqLoop true 1 [goodFile 5, goodFile 5, goodFile 7] 0 (seqAcc0 []) =
      .ok (seqModel 1 [5, 5, 7] 0 (seqAcc0 [])) :=
    seqLoop_goodFiles 1 [5, 5, 7] 0 (seqAcc0 [])
  have hmodel : seqModel 1 [5, 5, 7] 0 (seqAcc0 []) =
      { doc := ["LayerAdd:Import", "LayerAdd:Import", "LayerAdd:Import"],
        errors := 0, uiErrors := 0, prevSurface := some 7, layersCount := 3,
        firstImported := some 0,
        waypoints := [(0, Interp.constant, Interp.constant),
                      (2, Interp.constant, Interp.constant)],
        removal := [1], switchLayers := [0, 2] } := by
    simp [seqModel, seqAcc0]
  have hseq : sequence_import seqEnvAll true 1 [goodFile 5, goodFile 5, goodFile 7] [] =
      { ok := true, cancelled := false,
        acc := { doc := ["LayerAdd:Import", "LayerAdd:Import", "LayerAdd:Import",
                         "LayerEncapsulateSwitch", "LayerRemove:duplicates",
                         "LayerParamConnect:layer_name"],
                 errors := 0, uiErrors := 0, prevSurface := some 7, layersCount := 3,
                 firstImported := some 0,
                 waypoints := [(0, Interp.constant, Interp.constant),
                               (2, Interp.constant, Interp.constant)],
                 removal := [1], switchLayers := [0, 2] } } := by
    unfold sequence_import
    rw [hloop, hmodel]
    simp [seqEnvAll, seqConnect, cancelSeq]
  refine ⟨?_, ?_, ?_, ?_⟩
  · rw [hseq]
  · rw [hseq]
    rfl
  · rw [hseq]
  · norm_num

/-- C4 amended: in import_sequence with remove_duplicates set and every
input a successfully imported raster file, an input whose rendered surface
equals the previous retained frame's surface is recorded for removal and
receives no waypoint, and each retained frame receives exactly one waypoint
on the animated selector with constant interpolation on both sides at time
k/frame_rate, where k counts all previously processed inputs including
duplicates; in particular, for three raster inputs where file #2 renders
identically to file #1 (and #3 differs), the two retained frames get
waypoints at times 0 and 2/frame_rate, the duplicate alone is recorded for
removal, and the retained frames alone are bound to the switch. -/
theorem sequence_waypoints_amended (fps : ℚ) (surfaces : List ℕ) :
    (seqLoop true fps (surfaces.map goodFile) 0 (seqAcc0 []) =
      .ok (seqModel fps surfaces 0 (seqAcc0 []))) ∧
    (∀ s1 s3 : ℕ, s3 ≠ s1 →
      (seqModel fps [s1, s1, s3] 0 (seqAcc0 [])).waypoints =
        [(0, Interp.constant, Interp.constant),
         (2 / fps, Interp.constant, Interp.constant)] ∧
      (seqModel fps [s1, s1, s3] 0 (seqAcc0 [])).removal = [1] ∧
      (seqModel fps [s1, s1, s3] 0 (seqAcc0 [])).switchLayers = [0, 2]) := by
  constructor
  · exact seqLoop_goodFiles fps surfaces 0 (seqAcc0 [])
  · intro s1 s3 hne
    have hne2 : ¬ ((s1 : ℕ) = s3) := fun hcontra => hne hcontra.symm
    simp [seqModel, seqAcc0, hne2]

theorem sequence_waypoints_amended_witness :
    (seqModel 1 [5, 5, 7] 0 (seqAcc0 [])).waypoints =
      [(0, Interp.constant, Interp.constant), (2 / 1, Interp.constant, Interp.constant)] ∧
    (seqModel 1 [5, 5, 7] 0 (seqAcc0 [])).removal = [1] ∧
    (seqModel 1 [5, 5, 7] 0 (seqAcc0 [])).switchLayers = [0, 2] := by
  have h := (sequence_waypoints_amended 1 [5, 5, 7]).2 5 7 (by decide)
  exact ⟨h.1, h.2.1, h.2.2⟩

end CanvasModel
